import Mathlib

/-!
Verification of the fiberzerolog logging-middleware adapter (gofiber/contrib).

The development shallowly embeds `fiberzerolog/config.go`:
  * the field-identifier constants (`FieldReferer`, ..., `FieldReqHeaders`),
  * the `Config` structure (Go nil-able slices and function pointers become
    `Option`s; `none` models Go `nil`),
  * `configDefault`, the configuration-resolution helper,
  * `Config.logger`, the per-request record builder; the record is modelled
    as the ordered list of key/value entries the method appends to the
    zerolog context (the base logger's pre-existing context fields, e.g. the
    timestamp, precede them and are outside this model).

External collaborators (the fiber HTTP context and the zerolog sink) are
modelled as plain data: `Ctx` packages the accessors `Config.logger` reads,
and a zerolog value attachment becomes an `Entry` (key paired with a typed
`Value`). The process identifier returned by `os.Getpid()` is passed in as
an explicit argument `pid`.

The severity-classification step lives in the handler file, which is not
among the sources here; it is modelled from the spec (`tierEntry`).
-/

namespace Fiberzerolog

/-- Go `[]byte` payloads, as lists of byte values. -/
abbrev Bytes := List Nat

/-- A typed value attached to the zerolog context: `Str`, `Int`, `Dur`,
`Bytes`, `Err` and `Stringer` attachments used by `Config.logger`
(a `Stringer` attaches the stringified value, so it is a `str`). -/
inductive Value where
  | str (s : String)
  | int (n : Int)
  | dur (d : Int)
  | bytes (b : Bytes)
  | err (e : String)
deriving DecidableEq, Repr

/-- One key/value pair appended to the log record. -/
abbrev Entry := String × Value

/-- zerolog severity levels are small integers (`zerolog.Level` is an int8). -/
abbrev Level := Int

def ErrorLevel : Level := 3

def WarnLevel : Level := 2

def InfoLevel : Level := 1

/-- Opaque handle for a `zerolog.Logger` value; the record builder never
inspects it, so only its identity matters in this model. -/
structure ZeroLogger where
  loggerId : Nat
deriving DecidableEq, Repr

/-- The fiber context accessors read by `Config.logger`, packaged as data.
`getHeader` models `fc.Get` (request header lookup), `getRespHeader` models
`fc.GetRespHeader`, `reqHeaders` models the `VisitAll` iteration order over
request headers, `body` models `fc.Body()`, `requestBody` models
`fc.Request().Body()`, `respBody` models `fc.Response().Body()`, and
`queryString` models the `Stringer` rendering of `fc.Request().URI().QueryArgs()`. -/
structure Ctx where
  getHeader : String → String
  protocol : String
  port : String
  ip : String
  hostname : String
  path : String
  originalURL : String
  method : String
  routePath : String
  statusCode : Int
  respBody : Bytes
  body : Bytes
  requestBody : Bytes
  queryString : String
  getRespHeader : String → String
  reqHeaders : List (String × Bytes)

def HeaderReferer : String := "Referer"

def HeaderXForwardedFor : String := "X-Forwarded-For"

def HeaderUserAgent : String := "User-Agent"

def HeaderXRequestID : String := "X-Request-Id"

def FieldReferer : String := "referer"

def FieldProtocol : String := "protocol"

def FieldPID : String := "pid"

def FieldPort : String := "port"

def FieldIP : String := "ip"

def FieldIPs : String := "ips"

def FieldHost : String := "host"

def FieldPath : String := "path"

def FieldURL : String := "url"

def FieldUserAgent : String := "ua"

def FieldLatency : String := "latency"

def FieldStatus : String := "status"

def FieldResBody : String := "resBody"

def FieldQueryParams : String := "queryParams"

def FieldBody : String := "body"

def FieldBytesReceived : String := "bytesReceived"

def FieldBytesSent : String := "bytesSent"

def FieldRoute : String := "route"

def FieldMethod : String := "method"

def FieldRequestID : String := "requestId"

def FieldError : String := "error"

def FieldReqHeaders : String := "reqHeaders"

/-- The enumerated field tags the `switch` in `Config.logger` dispatches on. -/
def recognizedFields : List String :=
  [FieldReferer, FieldProtocol, FieldPID, FieldPort, FieldIP, FieldIPs,
   FieldHost, FieldPath, FieldURL, FieldUserAgent, FieldLatency, FieldStatus,
   FieldResBody, FieldQueryParams, FieldBody, FieldBytesReceived,
   FieldBytesSent, FieldRoute, FieldMethod, FieldRequestID, FieldError,
   FieldReqHeaders]

/-- The middleware `Config` struct. Go nil-able fields (slices, pointers,
function values) are `Option`s; `none` is Go `nil`. -/
structure Config where
  Next : Option (Ctx → Bool)
  SkipBody : Option (Ctx → Bool)
  SkipResBody : Option (Ctx → Bool)
  GetResBody : Option (Ctx → Bytes)
  SkipURIs : Option (List String)
  Logger : Option ZeroLogger
  GetLogger : Option (Ctx → ZeroLogger)
  Fields : Option (List String)
  Messages : Option (List String)
  Levels : Option (List Level)

/-- The package-level default logger (`zerolog.New(os.Stderr).With().Timestamp().Logger()`). -/
def defaultLogger : ZeroLogger := ⟨0⟩

/-- `ConfigDefault`, the default config value. -/
def ConfigDefault : Config :=
  { Next := none
    SkipBody := none
    SkipResBody := none
    GetResBody := none
    SkipURIs := none
    Logger := some defaultLogger
    GetLogger := none
    Fields := some [FieldLatency, FieldStatus, FieldMethod, FieldURL, FieldError]
    Messages := some ["Server error", "Client error", "Success"]
    Levels := some [ErrorLevel, WarnLevel, InfoLevel] }

/-- `configDefault`: returns `ConfigDefault` when no config is given,
otherwise replaces the nil `Next`, `Logger`, `Fields`, `Messages` and
`Levels` of the first given config with the `ConfigDefault` values. -/
def configDefault (config : List Config) : Config :=
  match config with
  | [] => ConfigDefault
  | cfg :: _ =>
    { cfg with
      Next := if cfg.Next.isNone then ConfigDefault.Next else cfg.Next
      Logger := if cfg.Logger.isNone then ConfigDefault.Logger else cfg.Logger
      Fields := if cfg.Fields.isNone then ConfigDefault.Fields else cfg.Fields
      Messages := if cfg.Messages.isNone then ConfigDefault.Messages else cfg.Messages
      Levels := if cfg.Levels.isNone then ConfigDefault.Levels else cfg.Levels }

/-- The guard of the `FieldResBody` arm: true exactly when `SkipResBody` is
set (non-nil) and returns true, i.e. the negation of the Go condition
`c.SkipResBody == nil || !c.SkipResBody(fc)`. -/
def skipResBodyNow (c : Config) (fc : Ctx) : Bool :=
  match c.SkipResBody with
  | none => false
  | some skip => skip fc

/-- The guard of the `FieldBody` arm: true exactly when `SkipBody` is set
(non-nil) and returns true. -/
def skipBodyNow (c : Config) (fc : Ctx) : Bool :=
  match c.SkipBody with
  | none => false
  | some skip => skip fc

/-- The `FieldResBody` arm of the `switch`: nothing when skipped; otherwise
the value comes from the `GetResBody` override when set, else from the raw
response body accessor. -/
def resBodyEntries (c : Config) (fc : Ctx) : List Entry :=
  if skipResBodyNow c fc then []
  else
    match c.GetResBody with
    | none => [(FieldResBody, Value.bytes fc.respBody)]
    | some get => [(FieldResBody, Value.bytes (get fc))]

/-- The `FieldBody` arm of the `switch`: nothing when skipped, else the
request body. -/
def bodyEntries (c : Config) (fc : Ctx) : List Entry :=
  if skipBodyNow c fc then [] else [(FieldBody, Value.bytes fc.body)]

/-- The `FieldError` arm of the `switch`: `zc.Err(err)` only when the
downstream error is non-nil; zerolog's `Err` attaches under the error field
name, which is `"error"` (= `FieldError`). -/
def errEntries (err : Option String) : List Entry :=
  match err with
  | none => []
  | some e => [(FieldError, Value.err e)]

/-- The entries a single field tag contributes to the record: one arm per
`case` of the `switch` in `Config.logger`; an unrecognized tag contributes
nothing. `pid` is the value of `os.Getpid()`, `latency` the measured
duration, `err` the downstream handler's error (`none` is Go `nil`). -/
def fieldEntry (c : Config) (pid : Int) (fc : Ctx) (latency : Int)
    (err : Option String) (field : String) : List Entry :=
  if field = FieldReferer then [(FieldReferer, Value.str (fc.getHeader HeaderReferer))]
  else if field = FieldProtocol then [(FieldProtocol, Value.str fc.protocol)]
  else if field = FieldPID then [(FieldPID, Value.int pid)]
  else if field = FieldPort then [(FieldPort, Value.str fc.port)]
  else if field = FieldIP then [(FieldIP, Value.str fc.ip)]
  else if field = FieldIPs then [(FieldIPs, Value.str (fc.getHeader HeaderXForwardedFor))]
  else if field = FieldHost then [(FieldHost, Value.str fc.hostname)]
  else if field = FieldPath then [(FieldPath, Value.str fc.path)]
  else if field = FieldURL then [(FieldURL, Value.str fc.originalURL)]
  else if field = FieldUserAgent then [(FieldUserAgent, Value.str (fc.getHeader HeaderUserAgent))]
  else if field = FieldLatency then [(FieldLatency, Value.dur latency)]
  else if field = FieldStatus then [(FieldStatus, Value.int fc.statusCode)]
  else if field = FieldResBody then resBodyEntries c fc
  else if field = FieldQueryParams then [(FieldQueryParams, Value.str fc.queryString)]
  else if field = FieldBody then bodyEntries c fc
  else if field = FieldBytesReceived then
    [(FieldBytesReceived, Value.int (fc.requestBody.length : Int))]
  else if field = FieldBytesSent then
    [(FieldBytesSent, Value.int (fc.respBody.length : Int))]
  else if field = FieldRoute then [(FieldRoute, Value.str fc.routePath)]
  else if field = FieldMethod then [(FieldMethod, Value.str fc.method)]
  else if field = FieldRequestID then
    [(FieldRequestID, Value.str (fc.getRespHeader HeaderXRequestID))]
  else if field = FieldError then errEntries err
  else if field = FieldReqHeaders then
    fc.reqHeaders.map (fun kv => (kv.1, Value.bytes kv.2))
  else []

/-- `Config.logger`: the ordered list of entries the record builder appends,
iterating `c.Fields` in order (a nil field list iterates over nothing). -/
def Config.logger (c : Config) (pid : Int) (fc : Ctx) (latency : Int)
    (err : Option String) : List Entry :=
  (c.Fields.getD []).flatMap (fieldEntry c pid fc latency err)

/-- Modelled from the spec: the fallback indexing rule of the severity
classification step (the handler file with the emission `switch` is not
among the sources): if the list has fewer entries than `i + 1`, the last
available entry is used. -/
def lastAvailable (l : List α) (i : Nat) : Option α :=
  if i < l.length then l.get? i else l.get? (l.length - 1)

/-- Modelled from the spec: the severity classification of the emission
step (the handler file is not among the sources): status ≥ 500 selects
tier 0, status ≥ 400 selects tier 1, anything else selects tier 2, each
with the fallback rule of `lastAvailable`. Applied to both the messages
list and the levels list. -/
def tierEntry (l : List α) (status : Int) : Option α :=
  if 500 ≤ status then lastAvailable l 0
  else if 400 ≤ status then lastAvailable l 1
  else lastAvailable l 2

/-- A concrete fiber context used to evaluate the theorems on explicit
inputs. -/
def testCtx : Ctx :=
  { getHeader := fun _ => "hv"
    protocol := "http"
    port := "80"
    ip := "1.2.3.4"
    hostname := "example.test"
    path := "/p"
    originalURL := "/p?q=1"
    method := "GET"
    routePath := "/p"
    statusCode := 200
    respBody := [1]
    body := [2]
    requestBody := [2]
    queryString := "q=1"
    getRespHeader := fun _ => "rid-1"
    reqHeaders := [("Accept", [3])] }

theorem lastAvailable_of_lt (l : List α) (i : Nat) (h : i < l.length) :
    lastAvailable l i = l.get? i :=
  if_pos h

/-- C1: the emitted record's message and level are chosen by status tier:
status ≥ 500 selects entry 0 of the messages and levels lists, 400 ≤ status
< 500 selects entry 1 (with fallback), any other status selects entry 2
(with fallback); with the default configuration, status 503 yields message
"Server error" at `ErrorLevel`, 404 yields "Client error" at `WarnLevel`,
and 200 yields "Success" at `InfoLevel`. -/
theorem c1_tier_selection :
    (∀ (ms : List String) (ls : List Level) (s : Int),
      3 ≤ ms.length → 3 ≤ ls.length →
      (500 ≤ s → tierEntry ms s = ms.get? 0 ∧ tierEntry ls s = ls.get? 0) ∧
      (400 ≤ s → s < 500 → tierEntry ms s = ms.get? 1 ∧ tierEntry ls s = ls.get? 1) ∧
      (s < 400 → tierEntry ms s = ms.get? 2 ∧ tierEntry ls s = ls.get? 2)) ∧
    tierEntry ((configDefault []).Messages.getD []) 503 = some "Server error" ∧
    tierEntry ((configDefault []).Messages.getD []) 404 = some "Client error" ∧
    tierEntry ((configDefault []).Messages.getD []) 200 = some "Success" ∧
    tierEntry ((configDefault []).Levels.getD []) 503 = some ErrorLevel ∧
    tierEntry ((configDefault []).Levels.getD []) 404 = some WarnLevel ∧
    tierEntry ((configDefault []).Levels.getD []) 200 = some InfoLevel := by
  refine ⟨?_, by decide, by decide, by decide, by decide, by decide, by decide⟩
  intro ms ls s hms hls
  refine ⟨fun h5 => ?_, fun h4 h5 => ?_, fun h4 => ?_⟩
  · rw [tierEntry, tierEntry, if_pos h5, if_pos h5,
      lastAvailable_of_lt _ _ (by omega), lastAvailable_of_lt _ _ (by omega)]
    exact ⟨rfl, rfl⟩
  · have h5' : ¬ (500 : Int) ≤ s := by omega
    rw [tierEntry, tierEntry, if_neg h5', if_pos h4, if_neg h5', if_pos h4,
      lastAvailable_of_lt _ _ (by omega), lastAvailable_of_lt _ _ (by omega)]
    exact ⟨rfl, rfl⟩
  · have h5' : ¬ (500 : Int) ≤ s := by omega
    have h4' : ¬ (400 : Int) ≤ s := by omega
    rw [tierEntry, tierEntry, if_neg h5', if_neg h4', if_neg h5', if_neg h4',
      lastAvailable_of_lt _ _ (by omega), lastAvailable_of_lt _ _ (by omega)]
    exact ⟨rfl, rfl⟩

theorem c1_tier_selection_witness :
    tierEntry ["Server error", "Client error", "Success"] (503 : Int)
      = some "Server error" :=
  (((c1_tier_selection.1 ["Server error", "Client error", "Success"]
      [ErrorLevel, WarnLevel, InfoLevel] 503 (by decide) (by decide)).1
      (by decide)).1).trans rfl

/-- C2: fallback for short lists: a single-entry messages or levels list is
used for every status code, and with a two-entry list tier 2 (success, i.e.
status < 400) falls back to entry 1. -/
theorem c2_fallback :
    (∀ (m : String) (s : Int), tierEntry [m] s = some m) ∧
    (∀ (lv : Level) (s : Int), tierEntry [lv] s = some lv) ∧
    (∀ (m0 m1 : String) (s : Int), s < 400 → tierEntry [m0, m1] s = some m1) ∧
    (∀ (l0 l1 : Level) (s : Int), s < 400 → tierEntry [l0, l1] s = some l1) := by
  refine ⟨fun m s => ?_, fun lv s => ?_, fun m0 m1 s hs => ?_, fun l0 l1 s hs => ?_⟩
  · simp [tierEntry, lastAvailable]
  · simp [tierEntry, lastAvailable]
  · have h5 : ¬ (500 : Int) ≤ s := by omega
    have h4 : ¬ (400 : Int) ≤ s := by omega
    simp [tierEntry, lastAvailable, h5, h4]
  · have h5 : ¬ (500 : Int) ≤ s := by omega
    have h4 : ¬ (400 : Int) ≤ s := by omega
    simp [tierEntry, lastAvailable, h5, h4]

theorem c2_fallback_witness :
    tierEntry ["only"] (404 : Int) = some "only" ∧
    tierEntry ["warn", "ok"] (200 : Int) = some "ok" :=
  ⟨c2_fallback.1 "only" 404, c2_fallback.2.2.1 "warn" "ok" 200 (by decide)⟩

/-- C3 counterexample: a config whose `Messages` and `Levels` are empty but
non-nil slices passes through `configDefault` unchanged, so the resolved
config still has empty (length-0) `Messages` and `Levels`: no fallback
default is substituted for an empty list. -/
theorem c3_counterexample :
    (configDefault [{ ConfigDefault with
        Messages := some [], Levels := some [] }]).Messages
      = some ([] : List String) ∧
    (configDefault [{ ConfigDefault with
        Messages := some [], Levels := some [] }]).Levels
      = some ([] : List Level) :=
  ⟨rfl, rfl⟩

/-- C3 (amended): `configDefault` substitutes the default `Messages` and
`Levels` exactly when the supplied list is nil (Go `nil`, here `none`): the
resolved lists are never nil, but an empty non-nil list passes through
unchanged, so the resolved config is not guaranteed non-empty. -/
theorem c3_nil_defaulting (cfg : Config) :
    (configDefault [cfg]).Messages
      = (match cfg.Messages with
         | none => ConfigDefault.Messages
         | some ms => some ms) ∧
    (configDefault [cfg]).Levels
      = (match cfg.Levels with
         | none => ConfigDefault.Levels
         | some ls => some ls) ∧
    ((configDefault [cfg]).Messages).isSome = true ∧
    ((configDefault [cfg]).Levels).isSome = true := by
  rcases hm : cfg.Messages with _ | ms <;> rcases hl : cfg.Levels with _ | ls <;>
    simp [configDefault, ConfigDefault, hm, hl]

/-- C10: `configDefault` is pure configuration resolution: with no argument
it returns `ConfigDefault`; given a config, each of `Next`, `Logger`,
`Fields`, `Messages`, `Levels` is replaced by the `ConfigDefault` value
exactly when it is nil, and `SkipBody`, `SkipResBody`, `GetResBody`,
`SkipURIs` and `GetLogger` pass through unchanged. -/
theorem c10_configDefault_resolution :
    configDefault [] = ConfigDefault ∧
    ∀ cfg : Config,
      (configDefault [cfg]).Next
          = (if cfg.Next.isNone then ConfigDefault.Next else cfg.Next) ∧
      (configDefault [cfg]).Logger
          = (if cfg.Logger.isNone then ConfigDefault.Logger else cfg.Logger) ∧
      (configDefault [cfg]).Fields
          = (if cfg.Fields.isNone then ConfigDefault.Fields else cfg.Fields) ∧
      (configDefault [cfg]).Messages
          = (if cfg.Messages.isNone then ConfigDefault.Messages else cfg.Messages) ∧
      (configDefault [cfg]).Levels
          = (if cfg.Levels.isNone then ConfigDefault.Levels else cfg.Levels) ∧
      (configDefault [cfg]).SkipBody = cfg.SkipBody ∧
      (configDefault [cfg]).SkipResBody = cfg.SkipResBody ∧
      (configDefault [cfg]).GetResBody = cfg.GetResBody ∧
      (configDefault [cfg]).SkipURIs = cfg.SkipURIs ∧
      (configDefault [cfg]).GetLogger = cfg.GetLogger :=
  ⟨rfl, fun _ => ⟨rfl, rfl, rfl, rfl, rfl, rfl, rfl, rfl, rfl, rfl⟩⟩

theorem fieldEntry_unrecognized (c : Config) (pid : Int) (fc : Ctx) (lat : Int)
    (err : Option String) (t : String) (ht : t ∉ recognizedFields) :
    fieldEntry c pid fc lat err t = [] := by
  simp only [recognizedFields, List.mem_cons, List.not_mem_nil, or_false,
    not_or] at ht
  obtain ⟨h1, h2, h3, h4, h5, h6, h7, h8, h9, h10, h11, h12, h13, h14, h15,
    h16, h17, h18, h19, h20, h21, h22⟩ := ht
  unfold fieldEntry
  rw [if_neg h1, if_neg h2, if_neg h3, if_neg h4, if_neg h5, if_neg h6,
    if_neg h7, if_neg h8, if_neg h9, if_neg h10, if_neg h11, if_neg h12,
    if_neg h13, if_neg h14, if_neg h15, if_neg h16, if_neg h17, if_neg h18,
    if_neg h19, if_neg h20, if_neg h21, if_neg h22]

theorem mem_resBodyEntries_key (c : Config) (fc : Ctx) :
    ∀ e ∈ resBodyEntries c fc, e.1 = FieldResBody := by
  intro e he
  unfold resBodyEntries at he
  split_ifs at he
  · simp at he
  · rcases hg : c.GetResBody with _ | get <;> rw [hg] at he <;> simp at he <;>
      simp [he]

theorem mem_bodyEntries_key (c : Config) (fc : Ctx) :
    ∀ e ∈ bodyEntries c fc, e.1 = FieldBody := by
  intro e he
  unfold bodyEntries at he
  split_ifs at he
  · simp at he
  · simp at he
    simp [he]

theorem errEntries_isSome (err : Option String) (e : Entry)
    (h : e ∈ errEntries err) : err.isSome = true := by
  rcases err with _ | msg
  · simp [errEntries] at h
  · rfl

theorem mem_errEntries_key (err : Option String) :
    ∀ e ∈ errEntries err, e.1 = FieldError := by
  intro e he
  rcases err with _ | msg <;> simp [errEntries] at he
  simp [he]

theorem fieldEntry_key (c : Config) (pid : Int) (fc : Ctx) (lat : Int)
    (err : Option String) (t : String) (hne : t ≠ FieldReqHeaders) :
    ∀ e ∈ fieldEntry c pid fc lat err t, e.1 = t := by
  intro e he
  unfold fieldEntry at he
  by_cases h1 : t = FieldReferer
  · rw [if_pos h1, List.mem_singleton] at he
    subst h1
    rw [he]
  rw [if_neg h1] at he
  by_cases h2 : t = FieldProtocol
  · rw [if_pos h2, List.mem_singleton] at he
    subst h2
    rw [he]
  rw [if_neg h2] at he
  by_cases h3 : t = FieldPID
  · rw [if_pos h3, List.mem_singleton] at he
    subst h3
    rw [he]
  rw [if_neg h3] at he
  by_cases h4 : t = FieldPort
  · rw [if_pos h4, List.mem_singleton] at he
    subst h4
    rw [he]
  rw [if_neg h4] at he
  by_cases h5 : t = FieldIP
  · rw [if_pos h5, List.mem_singleton] at he
    subst h5
    rw [he]
  rw [if_neg h5] at he
  by_cases h6 : t = FieldIPs
  · rw [if_pos h6, List.mem_singleton] at he
    subst h6
    rw [he]
  rw [if_neg h6] at he
  by_cases h7 : t = FieldHost
  · rw [if_pos h7, List.mem_singleton] at he
    subst h7
    rw [he]
  rw [if_neg h7] at he
  by_cases h8 : t = FieldPath
  · rw [if_pos h8, List.mem_singleton] at he
    subst h8
    rw [he]
  rw [if_neg h8] at he
  by_cases h9 : t = FieldURL
  · rw [if_pos h9, List.mem_singleton] at he
    subst h9
    rw [he]
  rw [if_neg h9] at he
  by_cases h10 : t = FieldUserAgent
  · rw [if_pos h10, List.mem_singleton] at he
    subst h10
    rw [he]
  rw [if_neg h10] at he
  by_cases h11 : t = FieldLatency
  · rw [if_pos h11, List.mem_singleton] at he
    subst h11
    rw [he]
  rw [if_neg h11] at he
  by_cases h12 : t = FieldStatus
  · rw [if_pos h12, List.mem_singleton] at he
    subst h12
    rw [he]
  rw [if_neg h12] at he
  by_cases h13 : t = FieldResBody
  · rw [if_pos h13] at he
    subst h13
    exact mem_resBodyEntries_key c fc e he
  rw [if_neg h13] at he
  by_cases h14 : t = FieldQueryParams
  · rw [if_pos h14, List.mem_singleton] at he
    subst h14
    rw [he]
  rw [if_neg h14] at he
  by_cases h15 : t = FieldBody
  · rw [if_pos h15] at he
    subst h15
    exact mem_bodyEntries_key c fc e he
  rw [if_neg h15] at he
  by_cases h16 : t = FieldBytesReceived
  · rw [if_pos h16, List.mem_singleton] at he
    subst h16
    rw [he]
  rw [if_neg h16] at he
  by_cases h17 : t = FieldBytesSent
  · rw [if_pos h17, List.mem_singleton] at he
    subst h17
    rw [he]
  rw [if_neg h17] at he
  by_cases h18 : t = FieldRoute
  · rw [if_pos h18, List.mem_singleton] at he
    subst h18
    rw [he]
  rw [if_neg h18] at he
  by_cases h19 : t = FieldMethod
  · rw [if_pos h19, List.mem_singleton] at he
    subst h19
    rw [he]
  rw [if_neg h19] at he
  by_cases h20 : t = FieldRequestID
  · rw [if_pos h20, List.mem_singleton] at he
    subst h20
    rw [he]
  rw [if_neg h20] at he
  by_cases h21 : t = FieldError
  · rw [if_pos h21] at he
    subst h21
    exact mem_errEntries_key err e he
  rw [if_neg h21] at he
  by_cases h22 : t = FieldReqHeaders
  · exact absurd h22 hne
  rw [if_neg h22] at he
  exact absurd he (List.not_mem_nil e)

theorem fieldEntry_resBody (c : Config) (pid : Int) (fc : Ctx) (lat : Int)
    (err : Option String) :
    fieldEntry c pid fc lat err FieldResBody = resBodyEntries c fc := rfl

theorem fieldEntry_body (c : Config) (pid : Int) (fc : Ctx) (lat : Int)
    (err : Option String) :
    fieldEntry c pid fc lat err FieldBody = bodyEntries c fc := rfl

theorem fieldEntry_error (c : Config) (pid : Int) (fc : Ctx) (lat : Int)
    (err : Option String) :
    fieldEntry c pid fc lat err FieldError = errEntries err := rfl

theorem fieldEntry_fields_irrel (c : Config) (fs : Option (List String))
    (pid : Int) (fc : Ctx) (lat : Int) (err : Option String) :
    fieldEntry { c with Fields := fs } pid fc lat err
      = fieldEntry c pid fc lat err := rfl

theorem skipBodyNow_of_some (c : Config) (fc : Ctx) (skip : Ctx → Bool)
    (h : c.SkipBody = some skip) : skipBodyNow c fc = skip fc := by
  unfold skipBodyNow
  rw [h]

theorem skipResBodyNow_of_some (c : Config) (fc : Ctx) (skip : Ctx → Bool)
    (h : c.SkipResBody = some skip) : skipResBodyNow c fc = skip fc := by
  unfold skipResBodyNow
  rw [h]

theorem key_mem_logger_iff (c : Config) (pid : Int) (fc : Ctx) (lat : Int)
    (err : Option String) (fields : List String)
    (hf : c.Fields = some fields) (k : String) :
    k ∈ (Config.logger c pid fc lat err).map Prod.fst ↔
      ∃ t ∈ fields, k ∈ (fieldEntry c pid fc lat err t).map Prod.fst := by
  unfold Config.logger
  rw [hf]
  simp only [Option.getD_some, List.mem_map, List.mem_flatMap]
  constructor
  · rintro ⟨e, ⟨t, htf, hte⟩, hek⟩
    exact ⟨t, htf, e, hte, hek⟩
  · rintro ⟨t, htf, e, hte, hek⟩
    exact ⟨e, ⟨t, htf, hte⟩, hek⟩

theorem fieldEntry_keys_full (c : Config) (pid : Int) (fc : Ctx) (lat : Int)
    (e : String) (t : String) (ht : t ∈ recognizedFields)
    (hne : t ≠ FieldReqHeaders) (hsb : c.SkipBody = none)
    (hsrb : c.SkipResBody = none) :
    (fieldEntry c pid fc lat (some e) t).map Prod.fst = [t] := by
  simp only [recognizedFields, List.mem_cons, List.not_mem_nil, or_false] at ht
  rcases ht with rfl | rfl | rfl | rfl | rfl | rfl | rfl | rfl | rfl | rfl |
    rfl | rfl | rfl | rfl | rfl | rfl | rfl | rfl | rfl | rfl | rfl | rfl
  all_goals try rfl
  · rw [fieldEntry_resBody]
    unfold resBodyEntries skipResBodyNow
    rw [hsrb]
    rcases hg : c.GetResBody with _ | get <;> rfl
  · rw [fieldEntry_body]
    unfold bodyEntries skipBodyNow
    rw [hsb]
    rfl
  · exact absurd rfl hne

theorem logger_keys_aux (c : Config) (pid : Int) (fc : Ctx) (lat : Int)
    (e : String) :
    ∀ fields : List String, (∀ t ∈ fields, t ∈ recognizedFields) →
    FieldReqHeaders ∉ fields → c.SkipBody = none → c.SkipResBody = none →
    (fields.flatMap (fieldEntry c pid fc lat (some e))).map Prod.fst
      = fields := by
  intro fields
  induction fields with
  | nil => intro _ _ _ _; rfl
  | cons t ts ih =>
    intro hrec hnh hsb hsrb
    rw [List.flatMap_cons, List.map_append,
      fieldEntry_keys_full c pid fc lat e t (hrec t (by simp))
        (fun h => hnh (by simp [h])) hsb hsrb,
      ih (fun x hx => hrec x (by simp [hx])) (fun h => hnh (by simp [h]))
        hsb hsrb]
    rfl

/-- C4: the record builder processes field tags in the configured order:
for a field list of recognized tags other than `reqHeaders`, with no
body/response-body skip predicate configured and a non-nil downstream
error, the emitted record's key list equals the configured field list. -/
theorem c4_key_order (c : Config) (pid : Int) (fc : Ctx) (lat : Int)
    (e : String) (fields : List String)
    (hrec : ∀ t ∈ fields, t ∈ recognizedFields)
    (hnh : FieldReqHeaders ∉ fields)
    (hsb : c.SkipBody = none) (hsrb : c.SkipResBody = none)
    (hf : c.Fields = some fields) :
    (Config.logger c pid fc lat (some e)).map Prod.fst = fields := by
  unfold Config.logger
  rw [hf]
  exact logger_keys_aux c pid fc lat e fields hrec hnh hsb hsrb

theorem c4_key_order_witness :
    (Config.logger { ConfigDefault with
        Fields := some [FieldStatus, FieldMethod, FieldPath] }
      7 testCtx 5 (some "boom")).map Prod.fst
      = [FieldStatus, FieldMethod, FieldPath] :=
  c4_key_order _ 7 testCtx 5 "boom" [FieldStatus, FieldMethod, FieldPath]
    (by decide) (by decide) rfl rfl rfl

/-- C5: an unrecognized tag in the field list is silently ignored: the
record equals the one built from the same list with that tag removed (and
the builder is a total function, so no error or panic can occur). -/
theorem c5_unrecognized_ignored (c : Config) (pid : Int) (fc : Ctx)
    (lat : Int) (err : Option String) (before after : List String)
    (t : String) (ht : t ∉ recognizedFields) :
    Config.logger { c with Fields := some (before ++ t :: after) }
        pid fc lat err
      = Config.logger { c with Fields := some (before ++ after) }
        pid fc lat err := by
  unfold Config.logger
  rw [fieldEntry_fields_irrel, fieldEntry_fields_irrel]
  show (before ++ t :: after).flatMap (fieldEntry c pid fc lat err)
      = (before ++ after).flatMap (fieldEntry c pid fc lat err)
  rw [List.flatMap_append, List.flatMap_append, List.flatMap_cons,
    fieldEntry_unrecognized c pid fc lat err t ht]
  simp

theorem c5_unrecognized_ignored_witness :
    Config.logger { ConfigDefault with
        Fields := some ([FieldStatus] ++ "bogus" :: [FieldMethod]) }
      1 testCtx 2 none
      = Config.logger { ConfigDefault with
          Fields := some ([FieldStatus] ++ [FieldMethod]) } 1 testCtx 2 none :=
  c5_unrecognized_ignored ConfigDefault 1 testCtx 2 none [FieldStatus]
    [FieldMethod] "bogus" (by decide)

/-- C6 counterexample: the spec-level long-form names are not the code's
tags: a field list consisting of "user-agent", "response-body",
"query-params", "bytes-received", "bytes-sent", "request-id" and
"request-headers" produces an empty record, so none of these strings is a
recognized tag that causes its field to be attached. -/
theorem c6_counterexample :
    Config.logger { ConfigDefault with
        Fields := some ["user-agent", "response-body", "query-params",
          "bytes-received", "bytes-sent", "request-id", "request-headers"] }
      1 testCtx 2 (some "boom") = [] := by
  decide

/-- C6 (amended): the recognized tags are exactly the 22 entries of
`recognizedFields` (referer, protocol, pid, port, ip, ips, host, path,
url, ua, latency, status, resBody, queryParams, body, bytesReceived,
bytesSent, route, method, requestId, error, reqHeaders): a tag outside the
list contributes nothing, every listed tag attaches at least one entry on
a context with nothing skipped and a non-nil error, and the long-form
names user-agent, response-body, query-params, bytes-received, bytes-sent,
request-id and request-headers are not recognized. -/
theorem c6_recognized_set :
    (∀ (c : Config) (pid : Int) (fc : Ctx) (lat : Int) (err : Option String)
      (t : String), t ∉ recognizedFields → fieldEntry c pid fc lat err t = []) ∧
    recognizedFields.all
      (fun t => !(fieldEntry ConfigDefault 1 testCtx 2 (some "boom") t).isEmpty)
      = true ∧
    ["user-agent", "response-body", "query-params", "bytes-received",
      "bytes-sent", "request-id", "request-headers"].all
      (fun t => !recognizedFields.contains t) = true := by
  refine ⟨fieldEntry_unrecognized, by decide, by decide⟩

theorem c6_recognized_set_witness :
    fieldEntry ConfigDefault 1 testCtx 2 (some "boom") "user-agent" = [] :=
  c6_recognized_set.1 ConfigDefault 1 testCtx 2 (some "boom") "user-agent"
    (by decide)

/-- C7: when the configured `SkipBody` predicate returns true the body key
is absent from the record even when the body tag is listed (and likewise
for `SkipResBody` and the resBody key), provided `reqHeaders` is not
listed (its header names could reintroduce the key); when no predicate is
configured or it returns false, the listed field is attached. -/
theorem c7_skip_body_predicates (c : Config) (pid : Int) (fc : Ctx)
    (lat : Int) (err : Option String) (fields : List String)
    (hf : c.Fields = some fields) (hnh : FieldReqHeaders ∉ fields) :
    (∀ skip, c.SkipBody = some skip → skip fc = true →
      FieldBody ∉ (Config.logger c pid fc lat err).map Prod.fst) ∧
    (∀ skip, c.SkipResBody = some skip → skip fc = true →
      FieldResBody ∉ (Config.logger c pid fc lat err).map Prod.fst) ∧
    (skipBodyNow c fc = false → FieldBody ∈ fields →
      FieldBody ∈ (Config.logger c pid fc lat err).map Prod.fst) ∧
    (skipResBodyNow c fc = false → FieldResBody ∈ fields →
      FieldResBody ∈ (Config.logger c pid fc lat err).map Prod.fst) := by
  refine ⟨?_, ?_, ?_, ?_⟩
  · intro skip hs hfc hmem
    rw [key_mem_logger_iff c pid fc lat err fields hf] at hmem
    obtain ⟨t, htf, hkt⟩ := hmem
    rcases List.mem_map.mp hkt with ⟨en, hen, hek⟩
    by_cases hreq : t = FieldReqHeaders
    · exact hnh (hreq ▸ htf)
    · have hk : en.1 = t := fieldEntry_key c pid fc lat err t hreq en hen
      have htb : t = FieldBody := by rw [← hk, hek]
      subst htb
      rw [fieldEntry_body] at hen
      unfold bodyEntries at hen
      rw [skipBodyNow_of_some c fc skip hs, hfc] at hen
      simp at hen
  · intro skip hs hfc hmem
    rw [key_mem_logger_iff c pid fc lat err fields hf] at hmem
    obtain ⟨t, htf, hkt⟩ := hmem
    rcases List.mem_map.mp hkt with ⟨en, hen, hek⟩
    by_cases hreq : t = FieldReqHeaders
    · exact hnh (hreq ▸ htf)
    · have hk : en.1 = t := fieldEntry_key c pid fc lat err t hreq en hen
      have htb : t = FieldResBody := by rw [← hk, hek]
      subst htb
      rw [fieldEntry_resBody] at hen
      unfold resBodyEntries at hen
      rw [skipResBodyNow_of_some c fc skip hs, hfc] at hen
      simp at hen
  · intro hskip hmem
    rw [key_mem_logger_iff c pid fc lat err fields hf]
    refine ⟨FieldBody, hmem, ?_⟩
    rw [fieldEntry_body]
    unfold bodyEntries
    rw [hskip]
    simp
  · intro hskip hmem
    rw [key_mem_logger_iff c pid fc lat err fields hf]
    refine ⟨FieldResBody, hmem, ?_⟩
    rw [fieldEntry_resBody]
    unfold resBodyEntries
    rw [hskip]
    rcases hg : c.GetResBody with _ | get <;> simp

theorem c7_skip_body_predicates_witness :
    FieldBody ∉ (Config.logger { ConfigDefault with
        SkipBody := some (fun _ => true), Fields := some [FieldBody] }
      1 testCtx 2 none).map Prod.fst ∧
    FieldBody ∈ (Config.logger { ConfigDefault with
        Fields := some [FieldBody] } 1 testCtx 2 none).map Prod.fst :=
  ⟨(c7_skip_body_predicates _ 1 testCtx 2 none [FieldBody] rfl
      (by decide)).1 (fun _ => true) rfl rfl,
   (c7_skip_body_predicates _ 1 testCtx 2 none [FieldBody] rfl
      (by decide)).2.2.1 rfl (by decide)⟩

/-- C8: when the response body is not skipped, the resBody entry's value is
the `GetResBody` override's return value when one is configured, and the
raw response body accessor's value when none is. -/
theorem c8_get_res_body (c : Config) (pid : Int) (fc : Ctx) (lat : Int)
    (err : Option String) (hns : skipResBodyNow c fc = false) :
    (∀ get, c.GetResBody = some get →
      fieldEntry c pid fc lat err FieldResBody
        = [(FieldResBody, Value.bytes (get fc))]) ∧
    (c.GetResBody = none →
      fieldEntry c pid fc lat err FieldResBody
        = [(FieldResBody, Value.bytes fc.respBody)]) := by
  constructor
  · intro get hg
    rw [fieldEntry_resBody]
    unfold resBodyEntries
    rw [hns, hg]
    rfl
  · intro hg
    rw [fieldEntry_resBody]
    unfold resBodyEntries
    rw [hns, hg]
    rfl

theorem c8_get_res_body_witness :
    fieldEntry { ConfigDefault with GetResBody := some (fun _ => [9, 9]) }
      1 testCtx 2 none FieldResBody
      = [(FieldResBody, Value.bytes [9, 9])] :=
  (c8_get_res_body
      { ConfigDefault with GetResBody := some (fun _ => [9, 9]) }
      1 testCtx 2 none rfl).1 (fun _ => [9, 9]) rfl

/-- C9: with the error tag in the field list (and `reqHeaders` absent,
whose header names could shadow the key), the error key appears in the
record exactly when the downstream handler's error is non-nil. -/
theorem c9_error_iff (c : Config) (pid : Int) (fc : Ctx) (lat : Int)
    (err : Option String) (fields : List String)
    (hf : c.Fields = some fields) (he : FieldError ∈ fields)
    (hnh : FieldReqHeaders ∉ fields) :
    FieldError ∈ (Config.logger c pid fc lat err).map Prod.fst
      ↔ err.isSome = true := by
  constructor
  · intro hmem
    rw [key_mem_logger_iff c pid fc lat err fields hf] at hmem
    obtain ⟨t, htf, hkt⟩ := hmem
    rcases List.mem_map.mp hkt with ⟨en, hen, hek⟩
    by_cases hreq : t = FieldReqHeaders
    · exact absurd (hreq ▸ htf) hnh
    · have hk : en.1 = t := fieldEntry_key c pid fc lat err t hreq en hen
      have hte : t = FieldError := by rw [← hk, hek]
      subst hte
      rw [fieldEntry_error] at hen
      exact errEntries_isSome err en hen
  · intro hs
    obtain ⟨msg, hmsg⟩ := Option.isSome_iff_exists.mp hs
    rw [key_mem_logger_iff c pid fc lat err fields hf]
    refine ⟨FieldError, he, ?_⟩
    rw [fieldEntry_error, hmsg]
    simp [errEntries]

theorem c9_error_iff_witness :
    FieldError ∈ (Config.logger { ConfigDefault with
        Fields := some [FieldError] } 1 testCtx 2 (some "boom")).map
      Prod.fst :=
  (c9_error_iff _ 1 testCtx 2 (some "boom") [FieldError] rfl (by decide)
    (by decide)).mpr rfl

end Fiberzerolog
